import Mathlib

/-!
Verification of the menu recommender backend engine
(the express `/recommend` endpoint: line splitting, ingredient
resolution by substring, avoid/like/dislike classification, scoring,
and ranking).  JavaScript string primitives are embedded as structural
recursions over `List Char`; the stable `Array.prototype.sort`
(ES2019) is modelled by `List.mergeSort`.
-/

namespace MenuRec

/-- Catalog ingredient record: id, canonical name, alias list. -/
structure Ingredient where
  id : String
  name : String
  aliases : List String
deriving DecidableEq

/-- Taste profile: three buckets of ingredient ids. -/
structure Profile where
  like : List String
  dislike : List String
  avoid : List String
deriving DecidableEq

/-- Per-dish result record produced by the recommend endpoint. -/
structure DishMatch where
  dish : String
  score : Int
  matchedLiked : List String
  matchedDisliked : List String
  matchedAvoid : List String
  explanation : String
deriving DecidableEq

/-- Mutable accumulator of the per-dish ingredient loop. -/
structure ScoreState where
  score : Int
  matchedLiked : List String
  matchedDisliked : List String
  matchedAvoid : List String
deriving DecidableEq

/-- Does the haystack start with the needle (character-wise)? -/
def matchesFrom : List Char → List Char → Bool
  | [], _ => true
  | _ :: _, [] => false
  | n :: ns, h :: hs => n == h && matchesFrom ns hs

/-- Does the needle occur contiguously anywhere in the haystack?
Embeds JavaScript `hay.includes(needle)` at the character-list level. -/
def occursIn (needle : List Char) : List Char → Bool
  | [] => needle.isEmpty
  | h :: hs => matchesFrom needle (h :: hs) || occursIn needle hs

/-- JavaScript `hay.includes(needle)` on strings. -/
def strIncludes (hay needle : String) : Bool :=
  occursIn needle.data hay.data

/-- JavaScript `s.toLowerCase()` (ASCII case folding). -/
def lowerStr (s : String) : String :=
  String.mk (s.data.map Char.toLower)

/-- JavaScript `s.split("\n")` at the character-list level:
always returns at least one (possibly empty) segment. -/
def splitOnNl : List Char → List (List Char)
  | [] => [[]]
  | c :: cs =>
    let r := splitOnNl cs
    if c == '\n' then [] :: r
    else
      match r with
      | [] => [[c]]
      | l :: ls => (c :: l) :: ls

/-- JavaScript `menuText.split("\n")` on strings. -/
def splitLines (s : String) : List String :=
  (splitOnNl s.data).map String.mk

/-- The dish lines of the menu text:
`menuText.split("\n").filter(Boolean)` keeps exactly the non-empty
segments (a string is truthy iff non-empty). -/
def dishLines (menuText : String) : List String :=
  (splitLines menuText).filter (fun s => !s.data.isEmpty)

/-- JavaScript `arr.join(", ")`. -/
def joinComma : List String → String
  | [] => ""
  | [s] => s
  | s :: rest => s ++ ", " ++ joinComma rest

/-- The `explanation` field of a DishMatch, from the matched lists
(the JavaScript template literal with the `|| "none"` fallback). -/
def explanationOf (ml ma : List String) : String :=
  if ma.length > 0 then
    "Rejected due to avoid ingredients: " ++ joinComma ma
  else
    "Matches liked: " ++ (if joinComma ml = "" then "none" else joinComma ml)

/-- Does the catalog ingredient match the (already lowercased) dish
line: `lowerDish.includes(ing.name) || ing.aliases.some(a =>
lowerDish.includes(a))`.  Note the catalog spelling is used verbatim;
only the dish text has been lowercased. -/
def ingMatches (lowerDish : String) (ing : Ingredient) : Bool :=
  strIncludes lowerDish ing.name || ing.aliases.any (fun a => strIncludes lowerDish a)

/-- One iteration of the `ingredients.forEach` loop of the endpoint. -/
def stepIng (profile : Profile) (lowerDish : String) (st : ScoreState)
    (ing : Ingredient) : ScoreState :=
  if ingMatches lowerDish ing then
    if profile.avoid.contains ing.id then
      { st with matchedAvoid := st.matchedAvoid ++ [ing.name], score := -999 }
    else if profile.like.contains ing.id then
      { st with matchedLiked := st.matchedLiked ++ [ing.name], score := st.score + 2 }
    else if profile.dislike.contains ing.id then
      { st with matchedDisliked := st.matchedDisliked ++ [ing.name], score := st.score - 1 }
    else st
  else st

/-- The loop starts from score 0 and empty matched lists. -/
def initState : ScoreState := ⟨0, [], [], []⟩

/-- Packages the final loop state into the response record. -/
def mkDishMatch (dish : String) (st : ScoreState) : DishMatch :=
  { dish := dish
    score := st.score
    matchedLiked := st.matchedLiked
    matchedDisliked := st.matchedDisliked
    matchedAvoid := st.matchedAvoid
    explanation := explanationOf st.matchedLiked st.matchedAvoid }

/-- Scores one dish line: lowercases the line and folds the
ingredient loop over the catalog. -/
def scoreDish (catalog : List Ingredient) (profile : Profile) (dish : String) : DishMatch :=
  mkDishMatch dish (catalog.foldl (stepIng profile (lowerStr dish)) initState)

/-- The sort comparator `(a, b) => b.score - a.score` as a total
boolean order: a may precede b iff a.score is not below b.score. -/
def scoreDesc (a b : DishMatch) : Bool :=
  decide (b.score ≤ a.score)

/-- The whole ranking pipeline of the `/recommend` endpoint body:
split into truthy lines, score each, sort by score descending.
`Array.prototype.sort` is stable (ES2019), modelled by `mergeSort`. -/
def rankDishes (catalog : List Ingredient) (profile : Profile) (menuText : String) :
    List DishMatch :=
  ((dishLines menuText).map (scoreDish catalog profile)).mergeSort scoreDesc

/-- The endpoint including its missing-data guard: JavaScript
`if (!menuText || !profile) return 400`.  With a string and a profile
object supplied, `!menuText` is true exactly for the empty string. -/
def recommend (catalog : List Ingredient) (menuText : String) (profile : Profile) :
    Except String (List DishMatch) :=
  if menuText = "" then Except.error "Missing data"
  else Except.ok (rankDishes catalog profile menuText)

/-- An ingredient classifies as avoid for a line: it matches and its
id is in the avoid bucket. -/
def classAvoid (profile : Profile) (lowerDish : String) (ing : Ingredient) : Bool :=
  ingMatches lowerDish ing && profile.avoid.contains ing.id

/-- An ingredient classifies as liked: it matches, is not avoided,
and its id is in the like bucket. -/
def classLike (profile : Profile) (lowerDish : String) (ing : Ingredient) : Bool :=
  ingMatches lowerDish ing && !profile.avoid.contains ing.id &&
    profile.like.contains ing.id

/-- An ingredient classifies as disliked: it matches, is in neither
the avoid nor the like bucket, and its id is in the dislike bucket. -/
def classDislike (profile : Profile) (lowerDish : String) (ing : Ingredient) : Bool :=
  ingMatches lowerDish ing && !profile.avoid.contains ing.id &&
    !profile.like.contains ing.id && profile.dislike.contains ing.id

/-- Spec reading of the resolution rule: the canonical name or an
alias occurs as a case-insensitive substring of the text, i.e. both
sides are lowercased before the substring test. -/
def specResolvesCaseIns (text : String) (ing : Ingredient) : Bool :=
  strIncludes (lowerStr text) (lowerStr ing.name) ||
    ing.aliases.any (fun a => strIncludes (lowerStr text) (lowerStr a))

/-- ASCII whitespace, as trimmed by JavaScript `trim` on menu text. -/
def isWsChar (c : Char) : Bool :=
  c == ' ' || c == '\t' || c == '\r' || c == '\n'

/-- Trim whitespace from both ends of a character list. -/
def trimChars (l : List Char) : List Char :=
  ((l.dropWhile isWsChar).reverse.dropWhile isWsChar).reverse

/-- Spec reading of the line count: the number of lines of the menu
text that are non-empty after trimming whitespace. -/
def specTrimmedLineCount (menuText : String) : Nat :=
  ((splitLines menuText).filter (fun s => !(trimChars s.data).isEmpty)).length

/-! Helper lemmas about the ingredient loop. -/

theorem stepIng_matchedAvoid (p : Profile) (ld : String) (st : ScoreState)
    (ing : Ingredient) :
    (stepIng p ld st ing).matchedAvoid
      = if classAvoid p ld ing then st.matchedAvoid ++ [ing.name]
        else st.matchedAvoid := by
  by_cases hm : ingMatches ld ing = true <;>
    by_cases ha : ing.id ∈ p.avoid <;>
      by_cases hl : ing.id ∈ p.like <;>
        by_cases hd : ing.id ∈ p.dislike <;>
          simp [stepIng, classAvoid, hm, ha, hl, hd]

theorem stepIng_matchedLiked (p : Profile) (ld : String) (st : ScoreState)
    (ing : Ingredient) :
    (stepIng p ld st ing).matchedLiked
      = if classLike p ld ing then st.matchedLiked ++ [ing.name]
        else st.matchedLiked := by
  by_cases hm : ingMatches ld ing = true <;>
    by_cases ha : ing.id ∈ p.avoid <;>
      by_cases hl : ing.id ∈ p.like <;>
        by_cases hd : ing.id ∈ p.dislike <;>
          simp [stepIng, classLike, hm, ha, hl, hd]

theorem stepIng_matchedDisliked (p : Profile) (ld : String) (st : ScoreState)
    (ing : Ingredient) :
    (stepIng p ld st ing).matchedDisliked
      = if classDislike p ld ing then st.matchedDisliked ++ [ing.name]
        else st.matchedDisliked := by
  by_cases hm : ingMatches ld ing = true <;>
    by_cases ha : ing.id ∈ p.avoid <;>
      by_cases hl : ing.id ∈ p.like <;>
        by_cases hd : ing.id ∈ p.dislike <;>
          simp [stepIng, classDislike, hm, ha, hl, hd]

theorem stepIng_score_of_not_avoid (p : Profile) (ld : String) (st : ScoreState)
    (ing : Ingredient) (h : classAvoid p ld ing = false) :
    (stepIng p ld st ing).score
      = st.score + (if classLike p ld ing then 2 else 0)
          - (if classDislike p ld ing then 1 else 0) := by
  by_cases hm : ingMatches ld ing = true
  · by_cases ha : ing.id ∈ p.avoid
    · exact absurd h (by simp [classAvoid, hm, ha])
    · by_cases hl : ing.id ∈ p.like <;>
        by_cases hd : ing.id ∈ p.dislike <;>
          simp [stepIng, classLike, classDislike, hm, ha, hl, hd]
  · simp [stepIng, classLike, classDislike, hm]

theorem foldl_matchedAvoid (p : Profile) (ld : String) :
    ∀ (cat : List Ingredient) (st : ScoreState),
      (cat.foldl (stepIng p ld) st).matchedAvoid
        = st.matchedAvoid ++ (cat.filter (classAvoid p ld)).map Ingredient.name
  | [], st => by simp
  | ing :: tl, st => by
    rw [List.foldl_cons, foldl_matchedAvoid p ld tl, stepIng_matchedAvoid,
      List.filter_cons]
    by_cases h : classAvoid p ld ing = true <;> simp [h]

theorem foldl_matchedLiked (p : Profile) (ld : String) :
    ∀ (cat : List Ingredient) (st : ScoreState),
      (cat.foldl (stepIng p ld) st).matchedLiked
        = st.matchedLiked ++ (cat.filter (classLike p ld)).map Ingredient.name
  | [], st => by simp
  | ing :: tl, st => by
    rw [List.foldl_cons, foldl_matchedLiked p ld tl, stepIng_matchedLiked,
      List.filter_cons]
    by_cases h : classLike p ld ing = true <;> simp [h]

theorem foldl_matchedDisliked (p : Profile) (ld : String) :
    ∀ (cat : List Ingredient) (st : ScoreState),
      (cat.foldl (stepIng p ld) st).matchedDisliked
        = st.matchedDisliked ++ (cat.filter (classDislike p ld)).map Ingredient.name
  | [], st => by simp
  | ing :: tl, st => by
    rw [List.foldl_cons, foldl_matchedDisliked p ld tl, stepIng_matchedDisliked,
      List.filter_cons]
    by_cases h : classDislike p ld ing = true <;> simp [h]

theorem foldl_score_of_no_avoid (p : Profile) (ld : String) :
    ∀ (cat : List Ingredient) (st : ScoreState),
      (∀ ing ∈ cat, classAvoid p ld ing = false) →
      (cat.foldl (stepIng p ld) st).score
        = st.score + 2 * ((cat.filter (classLike p ld)).length : Int)
            - ((cat.filter (classDislike p ld)).length : Int)
  | [], st, _ => by simp
  | ing :: tl, st, h => by
    have h0 : classAvoid p ld ing = false := h ing (by simp)
    rw [List.foldl_cons,
      foldl_score_of_no_avoid p ld tl _ (fun i hi => h i (by simp [hi])),
      stepIng_score_of_not_avoid p ld st ing h0, List.filter_cons, List.filter_cons]
    by_cases hl : classLike p ld ing = true <;>
      by_cases hd : classDislike p ld ing = true <;>
        simp [hl, hd, List.length_cons] <;> omega

theorem scoreDish_matchedAvoid (catalog : List Ingredient) (p : Profile)
    (dish : String) :
    (scoreDish catalog p dish).matchedAvoid
      = (catalog.filter (classAvoid p (lowerStr dish))).map Ingredient.name := by
  show (catalog.foldl (stepIng p (lowerStr dish)) initState).matchedAvoid = _
  rw [foldl_matchedAvoid]
  rfl

theorem scoreDish_matchedLiked (catalog : List Ingredient) (p : Profile)
    (dish : String) :
    (scoreDish catalog p dish).matchedLiked
      = (catalog.filter (classLike p (lowerStr dish))).map Ingredient.name := by
  show (catalog.foldl (stepIng p (lowerStr dish)) initState).matchedLiked = _
  rw [foldl_matchedLiked]
  rfl

theorem scoreDish_matchedDisliked (catalog : List Ingredient) (p : Profile)
    (dish : String) :
    (scoreDish catalog p dish).matchedDisliked
      = (catalog.filter (classDislike p (lowerStr dish))).map Ingredient.name := by
  show (catalog.foldl (stepIng p (lowerStr dish)) initState).matchedDisliked = _
  rw [foldl_matchedDisliked]
  rfl

theorem rankDishes_length (catalog : List Ingredient) (p : Profile)
    (menuText : String) :
    (rankDishes catalog p menuText).length = (dishLines menuText).length := by
  simp [rankDishes]

theorem scoreDesc_trans (a b c : DishMatch) (hab : scoreDesc a b = true)
    (hbc : scoreDesc b c = true) : scoreDesc a c = true := by
  simp only [scoreDesc, decide_eq_true_eq] at hab hbc ⊢
  omega

theorem scoreDesc_total (a b : DishMatch) : (scoreDesc a b || scoreDesc b a) = true := by
  simp only [scoreDesc, Bool.or_eq_true, decide_eq_true_eq]
  omega

theorem three_filter_length_le (p : Profile) (ld : String) :
    ∀ cat : List Ingredient,
      (cat.filter (classLike p ld)).length + (cat.filter (classDislike p ld)).length
          + (cat.filter (classAvoid p ld)).length ≤ cat.length
  | [] => by simp
  | ing :: tl => by
    have ih := three_filter_length_le p ld tl
    rw [List.filter_cons, List.filter_cons, List.filter_cons]
    by_cases hm : ingMatches ld ing = true <;>
      by_cases ha : ing.id ∈ p.avoid <;>
        by_cases hl : ing.id ∈ p.like <;>
          by_cases hd : ing.id ∈ p.dislike <;>
            simp [classLike, classDislike, classAvoid, hm, ha, hl, hd] <;> omega

theorem any_congr_of_mem_eq (l : List String) (p q : String → Bool)
    (h : ∀ a ∈ l, p a = q a) : l.any p = l.any q := by
  induction l with
  | nil => rfl
  | cons x xs ih =>
    simp only [List.any_cons]
    rw [h x (by simp), ih (fun a ha => h a (by simp [ha]))]

theorem filter_map_name_not_shared (catalog : List Ingredient)
    (p q : Ingredient → Bool)
    (hpq : ∀ ing, p ing = true → q ing = true → False)
    (hnames : (catalog.map Ingredient.name).Nodup) (s : String) :
    ¬ (s ∈ (catalog.filter p).map Ingredient.name ∧
        s ∈ (catalog.filter q).map Ingredient.name) := by
  rintro ⟨h1, h2⟩
  obtain ⟨x, hx, hxs⟩ := List.mem_map.mp h1
  obtain ⟨y, hy, hys⟩ := List.mem_map.mp h2
  obtain ⟨hxc, hxp⟩ := List.mem_filter.mp hx
  obtain ⟨hyc, hyq⟩ := List.mem_filter.mp hy
  have hxy : x = y := List.inj_on_of_nodup_map hnames hxc hyc (by rw [hxs, hys])
  exact hpq x hxp (hxy ▸ hyq)

/-! Claim theorems. -/

/-- C1: the spec demands the sentinel score -999 whenever an avoid
ingredient is resolved, regardless of other matches and of catalog
order.  The code violates this: with the avoid ingredient listed
before a liked ingredient in the catalog, the later liked match adds
2 to the already-set sentinel, giving -997 instead of -999. -/
theorem c1_sentinel_overwritten_eval :
    scoreDish [⟨"i2", "peanut", []⟩, ⟨"i1", "garlic", []⟩] ⟨["i1"], [], ["i2"]⟩
        "garlic peanut stew"
      = ⟨"garlic peanut stew", -997, ["garlic"], [], ["peanut"],
          "Rejected due to avoid ingredients: peanut"⟩ := by
  decide

/-- Catalog of the worked scenario of the spec. -/
def scenarioCatalog : List Ingredient :=
  [⟨"i1", "garlic", []⟩, ⟨"i2", "peanuts", ["groundnut"]⟩]

/-- Profile of the worked scenario of the spec. -/
def scenarioProfile : Profile := ⟨["i1"], [], ["i2"]⟩

/-- Menu text of the worked scenario of the spec. -/
def scenarioMenu : String := "Garlic Chicken\nPeanut Satay"

theorem scenario_rank_eval :
    rankDishes scenarioCatalog scenarioProfile scenarioMenu
      = [⟨"Garlic Chicken", 2, ["garlic"], [], [], "Matches liked: garlic"⟩,
         ⟨"Peanut Satay", 0, [], [], [], "Matches liked: none"⟩] := by
  have h1 : (dishLines scenarioMenu).map (scoreDish scenarioCatalog scenarioProfile)
      = [⟨"Garlic Chicken", 2, ["garlic"], [], [], "Matches liked: garlic"⟩,
         ⟨"Peanut Satay", 0, [], [], [], "Matches liked: none"⟩] := by decide
  show ((dishLines scenarioMenu).map
      (scoreDish scenarioCatalog scenarioProfile)).mergeSort scoreDesc = _
  rw [h1]
  exact List.mergeSort_of_sorted (by decide)

/-- C2 counterexample: the worked scenario does not produce the
claimed output.  The string "peanuts" is not a substring of the
lowercased line "peanut satay", so "Peanut Satay" gets score 0 with
empty matchedAvoid, not the sentinel with matchedAvoid ["peanuts"]. -/
theorem c2_scenario_counterexample :
    ¬ ((rankDishes scenarioCatalog scenarioProfile scenarioMenu).map
          (fun d => (d.dish, d.score, d.matchedAvoid))
        = [("Garlic Chicken", 2, []), ("Peanut Satay", -999, ["peanuts"])]) := by
  rw [scenario_rank_eval]
  decide

/-- C2 (amended): in the worked scenario, "Garlic Chicken" gets
score 2 with matchedLiked ["garlic"] and ranks first, while "Peanut
Satay" resolves no ingredient at all (substring matching does not
find "peanuts" or "groundnut" in it) and gets score 0, ranking
second. -/
theorem c2_scenario_amended :
    rankDishes scenarioCatalog scenarioProfile scenarioMenu
      = [⟨"Garlic Chicken", 2, ["garlic"], [], [], "Matches liked: garlic"⟩,
         ⟨"Peanut Satay", 0, [], [], [], "Matches liked: none"⟩] :=
  scenario_rank_eval

/-- C3 counterexample: an empty menu text with a well-formed profile
and catalog is rejected by the endpoint with the Missing-data error,
not answered with an empty result sequence. -/
theorem c3_empty_menu_counterexample :
    recommend [] "" ⟨[], [], []⟩ = Except.error "Missing data" := rfl

/-- C3 (amended): the empty menu text is caught by the missing-data
guard (an empty string is falsy) and yields the Missing-data error;
a non-empty menu text consisting of a single newline passes the guard
and yields an empty result sequence as a normal outcome. -/
theorem c3_empty_menu_amended (catalog : List Ingredient) (profile : Profile) :
    recommend catalog "" profile = Except.error "Missing data" ∧
    recommend catalog "\n" profile = Except.ok [] := by
  constructor
  · rfl
  · have hne : ("\n" : String) ≠ "" := by decide
    have hd : dishLines "\n" = [] := by decide
    simp [recommend, hne, rankDishes, hd]

/-- C4 counterexample: a menu text consisting of one space is a
truthy line, so the ranker returns one result, while the number of
lines that are non-empty after trimming whitespace is zero. -/
theorem c4_trimming_counterexample :
    (rankDishes [] ⟨[], [], []⟩ " ").length = 1 ∧
    specTrimmedLineCount " " = 0 := by
  refine ⟨?_, by decide⟩
  rw [rankDishes_length]
  decide

/-- C4 (amended): the length of the result sequence equals the
number of non-empty lines of the menu text, without trimming:
whitespace-only lines are kept and scored; no line is dropped even
when its score is the negative sentinel. -/
theorem c4_length_amended (catalog : List Ingredient) (profile : Profile)
    (menuText : String) :
    (rankDishes catalog profile menuText).length
      = ((splitLines menuText).filter (fun s => !s.data.isEmpty)).length := by
  rw [rankDishes_length]
  rfl

/-- C5 counterexample: an id present in both the like and the
dislike bucket is classified as liked, not disliked: the dish gets
score +2 and the name lands in matchedLiked, while matchedDisliked
stays empty. -/
theorem c5_precedence_counterexample :
    (scoreDish [⟨"i1", "x", []⟩] ⟨["i1"], ["i1"], []⟩ "x").matchedLiked = ["x"] ∧
    (scoreDish [⟨"i1", "x", []⟩] ⟨["i1"], ["i1"], []⟩ "x").matchedDisliked = [] ∧
    (scoreDish [⟨"i1", "x", []⟩] ⟨["i1"], ["i1"], []⟩ "x").score = 2 := by
  decide

/-- C5 (amended): classification precedence is avoid over like over
dislike: a resolved ingredient whose id is in avoid is recorded in
matchedAvoid whatever the other buckets say; outside avoid, an id in
like is recorded in matchedLiked even when it is also in dislike; the
dislike bucket only applies to ids in neither avoid nor like. -/
theorem c5_precedence_amended (catalog : List Ingredient) (profile : Profile)
    (dish : String) (ing : Ingredient) (hmem : ing ∈ catalog)
    (hmatch : ingMatches (lowerStr dish) ing = true) :
    (profile.avoid.contains ing.id = true →
        ing.name ∈ (scoreDish catalog profile dish).matchedAvoid) ∧
    (profile.avoid.contains ing.id = false → profile.like.contains ing.id = true →
        ing.name ∈ (scoreDish catalog profile dish).matchedLiked) ∧
    (profile.avoid.contains ing.id = false → profile.like.contains ing.id = false →
        profile.dislike.contains ing.id = true →
        ing.name ∈ (scoreDish catalog profile dish).matchedDisliked) := by
  refine ⟨fun ha => ?_, fun ha hl => ?_, fun ha hl hd => ?_⟩
  · rw [scoreDish_matchedAvoid]
    exact List.mem_map.mpr
      ⟨ing, List.mem_filter.mpr ⟨hmem, by simp [classAvoid, hmatch]; simpa using ha⟩, rfl⟩
  · rw [scoreDish_matchedLiked]
    exact List.mem_map.mpr
      ⟨ing, List.mem_filter.mpr ⟨hmem, by
        simp [classLike, hmatch]
        exact ⟨by simpa using ha, by simpa using hl⟩⟩, rfl⟩
  · rw [scoreDish_matchedDisliked]
    exact List.mem_map.mpr
      ⟨ing, List.mem_filter.mpr ⟨hmem, by
        simp [classDislike, hmatch]
        exact ⟨⟨by simpa using ha, by simpa using hl⟩, by simpa using hd⟩⟩, rfl⟩

/-- C5 witness: an ingredient whose id sits in both like and dislike
is resolved in the line "x" and its name is recorded in the
matchedLiked list. -/
theorem c5_precedence_witness :
    (⟨"i1", "x", []⟩ : Ingredient) ∈ ([⟨"i1", "x", []⟩] : List Ingredient) ∧
    ingMatches (lowerStr "x") ⟨"i1", "x", []⟩ = true ∧
    "x" ∈ (scoreDish [⟨"i1", "x", []⟩] ⟨["i1"], ["i1"], []⟩ "x").matchedLiked :=
  ⟨by decide, by decide,
    (c5_precedence_amended [⟨"i1", "x", []⟩] ⟨["i1"], ["i1"], []⟩ "x" ⟨"i1", "x", []⟩
        (by decide) (by decide)).2.1 (by decide) (by decide)⟩

/-- C6: the result sequence is sorted by score descending, and the
sort is stable: whenever two scored dishes a and b with equal scores
appear in that order among the scored lines of the menu text, a still
appears before b in the ranked output. -/
theorem c6_stable_sort (catalog : List Ingredient) (profile : Profile)
    (menuText : String) (pre mid suf : List DishMatch) (a b : DishMatch)
    (hsplit : (dishLines menuText).map (scoreDish catalog profile)
        = pre ++ a :: (mid ++ b :: suf))
    (hscore : a.score = b.score) :
    List.Sublist [a, b] (rankDishes catalog profile menuText) ∧
    (rankDishes catalog profile menuText).Pairwise
      (fun x y => y.score ≤ x.score) := by
  constructor
  · show List.Sublist [a, b] (((dishLines menuText).map
        (scoreDish catalog profile)).mergeSort scoreDesc)
    apply List.pair_sublist_mergeSort scoreDesc_trans scoreDesc_total
    · simp [scoreDesc, hscore]
    · rw [hsplit]
      refine List.Sublist.trans ?_ (List.sublist_append_right pre _)
      refine List.Sublist.cons₂ a ?_
      refine List.Sublist.trans ?_ (List.sublist_append_right mid _)
      exact List.Sublist.cons₂ b (List.nil_sublist suf)
  · have h := List.sorted_mergeSort scoreDesc_trans scoreDesc_total
      ((dishLines menuText).map (scoreDish catalog profile))
    exact h.imp (fun hx => by simpa [scoreDesc] using hx)

/-- C6 witness: with an empty catalog, the two lines of "A\nB" both
score 0, and the first line still precedes the second in the ranked
output. -/
theorem c6_stable_sort_witness :
    ((dishLines "A\nB").map (scoreDish [] ⟨[], [], []⟩)
        = [] ++ (⟨"A", 0, [], [], [], "Matches liked: none"⟩ : DishMatch)
            :: ([] ++ (⟨"B", 0, [], [], [], "Matches liked: none"⟩ : DishMatch) :: [])) ∧
    List.Sublist
      [(⟨"A", 0, [], [], [], "Matches liked: none"⟩ : DishMatch),
       ⟨"B", 0, [], [], [], "Matches liked: none"⟩]
      (rankDishes [] ⟨[], [], []⟩ "A\nB") :=
  ⟨by decide,
    (c6_stable_sort [] ⟨[], [], []⟩ "A\nB" [] [] []
        ⟨"A", 0, [], [], [], "Matches liked: none"⟩
        ⟨"B", 0, [], [], [], "Matches liked: none"⟩
        (by decide) (by decide)).1⟩

/-- C7 counterexample: resolution is not case-insensitive on the
catalog side: an ingredient spelled "Cilantro" in the catalog occurs
case-insensitively in the text "cilantro soup" but is not resolved,
because only the dish text is lowercased before the substring test. -/
theorem c7_case_counterexample :
    specResolvesCaseIns "cilantro soup" ⟨"c1", "Cilantro", []⟩ = true ∧
    ingMatches (lowerStr "cilantro soup") ⟨"c1", "Cilantro", []⟩ = false := by
  decide

/-- C7 (amended): the code lowercases only the dish text and matches
the catalog spellings verbatim; this coincides with case-insensitive
matching exactly when the canonical name and all aliases are already
lowercase, as they are for the cilantro example of the spec. -/
theorem c7_resolution_amended (text : String) (ing : Ingredient)
    (hn : lowerStr ing.name = ing.name)
    (ha : ing.aliases.all (fun a => lowerStr a == a) = true) :
    ingMatches (lowerStr text) ing = specResolvesCaseIns text ing := by
  unfold ingMatches specResolvesCaseIns
  rw [hn]
  congr 1
  apply any_congr_of_mem_eq
  intro a hmem
  have h1 : lowerStr a = a := by
    have h2 := List.all_eq_true.mp ha a hmem
    exact eq_of_beq h2
  rw [h1]

/-- C7 witness: the ingredient named "cilantro" with alias "coriander
leaf" is lowercase in the catalog, so the code resolution agrees with
case-insensitive matching and the ingredient is found in the text
"Coriander Leaf garnish." -/
theorem c7_resolution_witness :
    lowerStr "cilantro" = "cilantro" ∧
    (["coriander leaf"].all (fun a => lowerStr a == a)) = true ∧
    ingMatches (lowerStr "Coriander Leaf garnish.")
        ⟨"c1", "cilantro", ["coriander leaf"]⟩
      = specResolvesCaseIns "Coriander Leaf garnish."
          ⟨"c1", "cilantro", ["coriander leaf"]⟩ ∧
    ingMatches (lowerStr "Coriander Leaf garnish.")
        ⟨"c1", "cilantro", ["coriander leaf"]⟩ = true :=
  ⟨by decide, by decide,
    c7_resolution_amended "Coriander Leaf garnish."
      ⟨"c1", "cilantro", ["coriander leaf"]⟩ (by decide) (by decide),
    by decide⟩

/-- C8 counterexample: the claimed formula 2·liked − 1·disliked
fails when a resolved ingredient id sits in both the like and the
dislike bucket: the code scores it only as liked, giving 2, while the
formula over the bucket memberships gives 2·1 − 1·1 = 1. -/
theorem c8_formula_counterexample :
    (scoreDish [⟨"i1", "x", []⟩] ⟨["i1"], ["i1"], []⟩ "x").score = 2 ∧
    (([⟨"i1", "x", []⟩] : List Ingredient).filter (fun ing =>
        ingMatches (lowerStr "x") ing && (Profile.mk ["i1"] ["i1"] []).like.contains ing.id)).length = 1 ∧
    (([⟨"i1", "x", []⟩] : List Ingredient).filter (fun ing =>
        ingMatches (lowerStr "x") ing && (Profile.mk ["i1"] ["i1"] []).dislike.contains ing.id)).length = 1 ∧
    (2 : Int) ≠ 2 * 1 - 1 := by
  refine ⟨by decide, by decide, by decide, by decide⟩

/-- C8 (amended): when no resolved ingredient of the line is in the
avoid bucket and the like and dislike buckets are disjoint on the
catalog ids, the score equals 2 times the number of resolved
ingredients whose id is liked minus the number of resolved
ingredients whose id is disliked; resolved ingredients in no bucket
contribute 0. -/
theorem c8_score_amended (catalog : List Ingredient) (profile : Profile)
    (dish : String)
    (hA : catalog.all (fun ing =>
        !ingMatches (lowerStr dish) ing || !profile.avoid.contains ing.id) = true)
    (hLD : catalog.all (fun ing =>
        !profile.like.contains ing.id || !profile.dislike.contains ing.id) = true) :
    (scoreDish catalog profile dish).score
      = 2 * ((catalog.filter (fun ing =>
            ingMatches (lowerStr dish) ing && profile.like.contains ing.id)).length : Int)
        - ((catalog.filter (fun ing =>
            ingMatches (lowerStr dish) ing && profile.dislike.contains ing.id)).length : Int) := by
  have hA' : ∀ ing ∈ catalog, classAvoid profile (lowerStr dish) ing = false := by
    intro ing hi
    have h1 := List.all_eq_true.mp hA ing hi
    simp at h1
    rcases h1 with h1 | h1 <;> simp [classAvoid, h1]
  have e1 : catalog.filter (classLike profile (lowerStr dish))
      = catalog.filter (fun ing =>
          ingMatches (lowerStr dish) ing && profile.like.contains ing.id) := by
    apply List.filter_congr
    intro ing hi
    have h1 := hA' ing hi
    simp only [classAvoid] at h1
    simp at h1
    by_cases hm : ingMatches (lowerStr dish) ing = true
    · simp [classLike, hm, h1 hm]
    · simp [classLike, hm]
  have e2 : catalog.filter (classDislike profile (lowerStr dish))
      = catalog.filter (fun ing =>
          ingMatches (lowerStr dish) ing && profile.dislike.contains ing.id) := by
    apply List.filter_congr
    intro ing hi
    have h1 := hA' ing hi
    simp only [classAvoid] at h1
    simp at h1
    have h2 := List.all_eq_true.mp hLD ing hi
    simp at h2
    by_cases hm : ingMatches (lowerStr dish) ing = true
    · rcases h2 with h2 | h2
      · simp [classDislike, hm, h1 hm, h2]
      · simp [classDislike, hm, h1 hm, h2]
    · simp [classDislike, hm]
  have hs : (scoreDish catalog profile dish).score
      = (catalog.foldl (stepIng profile (lowerStr dish)) initState).score := rfl
  rw [hs, foldl_score_of_no_avoid profile (lowerStr dish) catalog initState hA', e1, e2]
  show (0 : Int) + _ - _ = _
  ring

/-- C8 witness: garlic is liked and olive is disliked, both resolve
in "garlic olive bread", nothing is avoided, and the score is
2·1 − 1 = 1. -/
theorem c8_score_witness :
    ([⟨"i1", "garlic", []⟩, ⟨"i3", "olive", []⟩] : List Ingredient).all (fun ing =>
        !ingMatches (lowerStr "garlic olive bread") ing
          || !(Profile.mk ["i1"] ["i3"] []).avoid.contains ing.id) = true ∧
    ([⟨"i1", "garlic", []⟩, ⟨"i3", "olive", []⟩] : List Ingredient).all (fun ing =>
        !(Profile.mk ["i1"] ["i3"] []).like.contains ing.id
          || !(Profile.mk ["i1"] ["i3"] []).dislike.contains ing.id) = true ∧
    (scoreDish [⟨"i1", "garlic", []⟩, ⟨"i3", "olive", []⟩] ⟨["i1"], ["i3"], []⟩
        "garlic olive bread").score
      = 2 * ((([⟨"i1", "garlic", []⟩, ⟨"i3", "olive", []⟩] : List Ingredient).filter
            (fun ing => ingMatches (lowerStr "garlic olive bread") ing
              && (Profile.mk ["i1"] ["i3"] []).like.contains ing.id)).length : Int)
        - ((([⟨"i1", "garlic", []⟩, ⟨"i3", "olive", []⟩] : List Ingredient).filter
            (fun ing => ingMatches (lowerStr "garlic olive bread") ing
              && (Profile.mk ["i1"] ["i3"] []).dislike.contains ing.id)).length : Int) :=
  ⟨by decide, by decide,
    c8_score_amended [⟨"i1", "garlic", []⟩, ⟨"i3", "olive", []⟩] ⟨["i1"], ["i3"], []⟩
      "garlic olive bread" (by decide) (by decide)⟩

/-- C9: each catalog ingredient contributes to the matched lists of
a dish at most once: each list is the image of a filter of the
catalog (one entry per catalog record, however many times its name or
aliases occur in the line), and the total length of the three lists
never exceeds the catalog length. -/
theorem c9_at_most_once (catalog : List Ingredient) (profile : Profile)
    (dish : String) :
    (scoreDish catalog profile dish).matchedLiked
        = (catalog.filter (classLike profile (lowerStr dish))).map Ingredient.name ∧
    (scoreDish catalog profile dish).matchedDisliked
        = (catalog.filter (classDislike profile (lowerStr dish))).map Ingredient.name ∧
    (scoreDish catalog profile dish).matchedAvoid
        = (catalog.filter (classAvoid profile (lowerStr dish))).map Ingredient.name ∧
    (scoreDish catalog profile dish).matchedLiked.length
        + (scoreDish catalog profile dish).matchedDisliked.length
        + (scoreDish catalog profile dish).matchedAvoid.length ≤ catalog.length := by
  refine ⟨scoreDish_matchedLiked catalog profile dish,
    scoreDish_matchedDisliked catalog profile dish,
    scoreDish_matchedAvoid catalog profile dish, ?_⟩
  rw [scoreDish_matchedLiked, scoreDish_matchedDisliked, scoreDish_matchedAvoid]
  simp only [List.length_map]
  exact three_filter_length_le profile (lowerStr dish) catalog

/-- C10 counterexample: two distinct catalog records sharing the
name "x", one liked and one disliked, both resolve in the line
"x dish", so the name "x" appears in matchedLiked and in
matchedDisliked: the lists are not pairwise disjoint. -/
theorem c10_disjoint_counterexample :
    "x" ∈ (scoreDish [⟨"a", "x", []⟩, ⟨"b", "x", []⟩] ⟨["a"], ["b"], []⟩
        "x dish").matchedLiked ∧
    "x" ∈ (scoreDish [⟨"a", "x", []⟩, ⟨"b", "x", []⟩] ⟨["a"], ["b"], []⟩
        "x dish").matchedDisliked := by
  decide

/-- C10 (amended): each catalog record is appended to at most one of
the three lists, so whenever the catalog names are pairwise distinct
the three matched lists are pairwise disjoint. -/
theorem c10_disjoint_amended (catalog : List Ingredient) (profile : Profile)
    (dish : String) (hnames : (catalog.map Ingredient.name).Nodup) (s : String) :
    ¬ (s ∈ (scoreDish catalog profile dish).matchedLiked ∧
        s ∈ (scoreDish catalog profile dish).matchedDisliked) ∧
    ¬ (s ∈ (scoreDish catalog profile dish).matchedLiked ∧
        s ∈ (scoreDish catalog profile dish).matchedAvoid) ∧
    ¬ (s ∈ (scoreDish catalog profile dish).matchedDisliked ∧
        s ∈ (scoreDish catalog profile dish).matchedAvoid) := by
  rw [scoreDish_matchedLiked, scoreDish_matchedDisliked, scoreDish_matchedAvoid]
  refine ⟨filter_map_name_not_shared catalog _ _ ?_ hnames s,
    filter_map_name_not_shared catalog _ _ ?_ hnames s,
    filter_map_name_not_shared catalog _ _ ?_ hnames s⟩
  · intro ing hp hq
    simp only [classLike, classDislike, Bool.and_eq_true, Bool.not_eq_true'] at hp hq
    exact Bool.false_ne_true (hq.1.2 ▸ hp.2)
  · intro ing hp hq
    simp only [classLike, classAvoid, Bool.and_eq_true, Bool.not_eq_true'] at hp hq
    exact Bool.false_ne_true (hp.1.2 ▸ hq.2)
  · intro ing hp hq
    simp only [classDislike, classAvoid, Bool.and_eq_true, Bool.not_eq_true'] at hp hq
    exact Bool.false_ne_true (hp.1.1.2 ▸ hq.2)

/-- C10 witness: with two distinctly named catalog records, one
liked and one disliked, the name "x" cannot be in both matchedLiked
and matchedDisliked. -/
theorem c10_disjoint_witness :
    (([⟨"i1", "x", []⟩, ⟨"i2", "y", []⟩] : List Ingredient).map Ingredient.name).Nodup ∧
    ¬ ("x" ∈ (scoreDish [⟨"i1", "x", []⟩, ⟨"i2", "y", []⟩] ⟨["i1"], ["i2"], []⟩
          "x y").matchedLiked ∧
        "x" ∈ (scoreDish [⟨"i1", "x", []⟩, ⟨"i2", "y", []⟩] ⟨["i1"], ["i2"], []⟩
          "x y").matchedDisliked) :=
  ⟨by decide,
    (c10_disjoint_amended [⟨"i1", "x", []⟩, ⟨"i2", "y", []⟩] ⟨["i1"], ["i2"], []⟩
        "x y" (by decide) "x").1⟩

end MenuRec
